import Mathlib

/-!
Verification development for the bootstrap layer of `react-workshop-app`
(`src/index.tsx`).  The TypeScript source is shallowly embedded: promises are
modelled by their eventual settlement (`Except JSError _`), JavaScript values
relevant to the module-normalisation logic by the inductive `JSValue`, and the
DOM/browser effects of a navigation pass by explicit state and effect records.
-/

set_option autoImplicit false

deriving instance DecidableEq for Except

namespace WorkshopApp

/-- JavaScript `s.endsWith(pat)`, as a suffix test on the character lists
(kept kernel-reducible; `String.endsWith` is not). -/
def endsWith (s pat : String) : Bool :=
  pat.data.isSuffixOf s.data

/-- JavaScript `s.startsWith(pat)`, as a prefix test on the character
lists. -/
def startsWith (s pat : String) : Bool :=
  pat.data.isPrefixOf s.data

/-- A JavaScript error value; only its `message` is observed by the code. -/
structure JSError where
  message : String
deriving DecidableEq, Repr

/-- The JavaScript values the module-normalisation code distinguishes.
`doNotRender` is the `DO_NOT_RENDER` function from `src/index.tsx` (identity
matters: `defaultExport === DO_NOT_RENDER`); `errorComponent msg` is the
fallback component `() => <div>{error.message}</div>`; `fn` is any other
function component; `str` an HTML-source string. -/
inductive JSValue where
  | undefined
  | nullv
  | fn (name : String)
  | doNotRender
  | errorComponent (msg : String)
  | str (s : String)
  | obj
deriving DecidableEq, Repr

/-- JavaScript nullish test (`undefined` or `null`). -/
def JSValue.isNullish : JSValue → Bool
  | .undefined => true
  | .nullv => true
  | _ => false

/-- JavaScript `typeof v === 'function'`. -/
def JSValue.isFunction : JSValue → Bool
  | .fn _ => true
  | .doNotRender => true
  | .errorComponent _ => true
  | _ => false

/-- JavaScript nullish coalescing `a ?? b`. -/
def jsNullish (a b : JSValue) : JSValue :=
  if a.isNullish then b else a

/-- A resolved ES module as the code observes it: an `App` export and a
`default` export (absent exports are `undefined`).  The webpack HTML loader
produces a module whose `default` is the markup string. -/
structure Module where
  App : JSValue := .undefined
  default : JSValue := .undefined
deriving DecidableEq, Repr

/-- The settlement of the promise produced by a dynamic `import()`:
either it fulfils with a module or it rejects with an error. -/
abbrev ImportResult := Except JSError Module

/-- The `Imports` map: logical file path to deferred loader, modelled by the
loader's settlement.  (An association list stands in for the JS object.) -/
abbrev Imports := List (String × ImportResult)

/-- `moduleWithDefaultExport` from `src/index.tsx` (lines 285-307).  The outer
`Except String` models the synchronous `throw new Error(...)` when the path is
missing from `imports`; the inner `ImportResult` is the settlement of the
promise the returned loader yields.  For a path ending in `html` the raw
loader is returned unchanged; otherwise the resolved module is normalised
(`module.App ?? module.default ?? DO_NOT_RENDER`) and a rejection is absorbed
into a fulfilled module whose default renders the error message.  (The
`targetBlankifyInstructionLinks` DOM side effect for `.md`/`.mdx` files and the
`console.error` logging are not modelled.) -/
def moduleWithDefaultExport (imports : Imports) (filePath : String) :
    Except String ImportResult :=
  match imports.lookup filePath with
  | none => .error ("'" ++ filePath ++ "' does not exist in imports.")
  | some importFn =>
    if endsWith filePath "html" then
      .ok importFn
    else
      .ok (.ok (match importFn with
        | .ok m =>
          { App := .undefined
            default := jsNullish m.App (jsNullish m.default .doNotRender) }
        | .error e =>
          { App := .undefined, default := .errorComponent e.message }))

/-! ### String helpers: the browser primitives the handler uses -/

/-- The characters `encodeURIComponent` leaves unescaped besides ASCII
letters and digits. -/
def uriMarks : List Char :=
  ['-', '_', '.', '!', '~', '*', Char.ofNat 39, '(', ')']

/-- Is `c` left unescaped by `encodeURIComponent`? -/
def isUnescapedURIChar (c : Char) : Bool :=
  c.isAlpha || c.isDigit || uriMarks.contains c

/-- Uppercase hexadecimal digit for `n < 16`. -/
def hexDigitChar (n : Nat) : Char :=
  if n < 10 then Char.ofNat (48 + n) else Char.ofNat (55 + n)

/-- The UTF-8 encoding of a character, as byte values. -/
def utf8Bytes (c : Char) : List Nat :=
  let n := c.toNat
  if n < 128 then [n]
  else if n < 2048 then [192 + n / 64, 128 + n % 64]
  else if n < 65536 then [224 + n / 4096, 128 + (n / 64) % 64, 128 + n % 64]
  else [240 + n / 262144, 128 + (n / 4096) % 64, 128 + (n / 64) % 64,
        128 + n % 64]

/-- `%XX` escape of one byte, uppercase hex, as in `encodeURIComponent`. -/
def percentEscape (b : Nat) : String :=
  String.mk ['%', hexDigitChar (b / 16), hexDigitChar (b % 16)]

/-- JavaScript `encodeURIComponent`: unescaped characters pass through,
every other character is replaced by the `%XX` escapes of its UTF-8 bytes. -/
def encodeURIComponent (s : String) : String :=
  String.join (s.toList.map fun c =>
    if isUnescapedURIChar c then String.singleton c
    else String.join ((utf8Bytes c).map percentEscape))

/-- `escapeForClassList` from `src/index.tsx` (lines 105-108):
`encodeURIComponent(name.replace(/\//g, '_'))`. -/
def escapeForClassList (name : String) : String :=
  encodeURIComponent (String.mk (name.data.map fun c => if c = '/' then '_' else c))

/-- Replace the first occurrence of `pat` in a character list (the list is
unchanged when `pat` does not occur). -/
def replaceFirstList (pat rep : List Char) : List Char → List Char
  | [] => []
  | c :: rest =>
    if pat.isPrefixOf (c :: rest) then rep ++ (c :: rest).drop pat.length
    else c :: replaceFirstList pat rep rest

/-- JavaScript `s.replace(pat, rep)` with a string pattern: replaces the
first occurrence only. -/
def jsReplaceFirst (s pat rep : String) : String :=
  String.mk (replaceFirstList pat.data rep.data s.data)

/-- JavaScript `pathname.split('/').slice(-1)[0]`: the last `/`-separated
segment (the whole string when there is no `/`). -/
def lastSegment (pathname : String) : String :=
  String.mk ((pathname.data.reverse.takeWhile (fun c => c ≠ '/')).reverse)

/-- Value of a digit character. -/
def digitsToNat (l : List Char) : Nat :=
  l.foldl (fun acc c => acc * 10 + (c.toNat - 48)) 0

/-- JavaScript `Number(s)` restricted to the shapes that occur in URL path
segments: `Number('') = 0`, a nonnegative decimal integer string is its value,
anything else is `NaN` (modelled as `none`).  Signs, fractions and exotic
numeric syntax are outside the model. -/
def jsNumber (s : String) : Option Nat :=
  if s = "" then some 0
  else if s.toList.all Char.isDigit then some (digitsToNat s.toList)
  else none

/-- JavaScript strict equality `a === b` between `info.number` (possibly
`undefined`, modelled `none`) and `Number(segment)` (possibly `NaN`, also
modelled `none`): `undefined` and `NaN` compare unequal to everything,
including themselves. -/
def jsNumEq : Option Nat → Option Nat → Bool
  | some a, some b => a == b
  | _, _ => false

/-! ### The file manifest -/

/-- Modelled from the spec: the `FileInfo` manifest record (its TypeScript
declaration lives in `src/types`, which is not part of the sources given) —
"file extension, file path, optional numeric index, optional title/filename,
and a type discriminator".  Field use matches `src/index.tsx`: `ext`,
`filePath`, `number`, `title`, `filename`, `type`.  A missing `title` is the
empty string (JavaScript `||` treats both alike); a missing `number` is
`none` (JavaScript `undefined`). -/
structure FileInfo where
  ext : String
  filePath : String
  number : Option Nat
  title : String
  filename : String
  type : String
deriving DecidableEq, Repr

/-! ### The navigation handler -/

/-- A `history` location object.  `id` models JavaScript object identity: the
handler's stale-render guard compares locations with `!==`, and the `history`
library creates a fresh object per navigation, so distinct navigations carry
distinct ids. -/
structure Location where
  id : Nat
  pathname : String
deriving DecidableEq, Repr

/-- The mutable state `handleLocationChange` reads and writes: the module-level
`previousLocation` / `previousIsIsolated` variables, `history.location`, the
body's class list and whether the body was replaced by the not-found
placeholder. -/
structure NavState where
  historyLocation : Location
  previousLocation : Location
  previousIsIsolated : Option Bool
  bodyClassList : List String
  bodyReplacedWithNotFound : Bool
deriving DecidableEq, Repr

/-- The observable effects of one `handleLocationChange` pass: whether the
not-found placeholder was installed, the title the deferred `setTimeout`
callback will set (`none` when the pass returned before scheduling it), the
file path handed to `renderIsolated` via `moduleWithDefaultExport`, and
whether `renderReact` was called. -/
structure NavEffects where
  notFound : Bool
  scheduledTitle : Option String
  renderIsolatedFilePath : Option String
  renderReactCalled : Bool
deriving DecidableEq, Repr

/-- The class-list update at the top of `handleLocationChange` (lines
110-123): remove the previous path's class if present, then add the new
path's class if absent.  `DOMTokenList.remove` removes every occurrence. -/
def updateClassList (l : List String) (prevClassName newClassName : String) :
    List String :=
  let cl1 := if l.contains prevClassName
    then l.filter (fun c => !(c == prevClassName)) else l
  if !(cl1.contains newClassName) then cl1 ++ [newClassName] else cl1

/-- Source-path lookup for an isolated navigation (lines 128-130):
`pathname.replace('/isolated', 'src')` then a manifest search by `filePath`. -/
def isolatedFilePath (pathname : String) : String :=
  jsReplaceFirst pathname "/isolated" "src"

/-- `filesInfo.find(i => i.filePath === filePath)` for an isolated path. -/
def findIsolatedInfo (filesInfo : List FileInfo) (pathname : String) :
    Option FileInfo :=
  filesInfo.find? (fun i => i.filePath == isolatedFilePath pathname)

/-- `filesInfo.find(i => i.type === 'instruction' && i.number === number)`
with `number = Number(pathname.split('/').slice(-1)[0])` (lines 132-135). -/
def findInstructionInfo (filesInfo : List FileInfo) (pathname : String) :
    Option FileInfo :=
  filesInfo.find? (fun i =>
    i.type == "instruction" && jsNumEq i.number (jsNumber (lastSegment pathname)))

/-- JavaScript `Array.filter(Boolean)` over `[string | null]`: drops `null`
and the empty string. -/
def jsFilterBoolean (l : List (Option String)) : List String :=
  l.filterMap (fun x => match x with
    | none => none
    | some s => if s = "" then none else some s)

/-- The title computed by the deferred callback (lines 154-172):
`[info ? [number ? `N. ` : '', title || filename].join('') : null,
projectTitle].filter(Boolean).join(' | ')`.  Note `info.number` is falsy both
when absent and when `0`. -/
def computeTitle (info : Option FileInfo) (projectTitle : String) : String :=
  let infoPart : Option String := info.map (fun i =>
    (match i.number with
     | some n => if n ≠ 0 then toString n ++ ". " else ""
     | none => "")
    ++ (if i.title ≠ "" then i.title else i.filename))
  String.intercalate " | " (jsFilterBoolean [infoPart, some projectTitle])

/-- `handleLocationChange` from `src/index.tsx` (lines 110-183), as a function
from the pre-pass state and the location the listener was called with to the
post-pass state and the pass's effects.  `renderIsolated` is recorded as the
file path passed to `moduleWithDefaultExport` (its possible synchronous throw
on a missing import entry is outside this model); `renderReact` as a flag.
On the not-found early return (lines 138-149) `previousLocation` and
`previousIsIsolated` are left unchanged, exactly as in the source. -/
def handleLocationChange (filesInfo : List FileInfo) (projectTitle : String)
    (st : NavState) (location : Location) : NavState × NavEffects :=
  let pathname := location.pathname
  let cl2 := updateClassList st.bodyClassList
    (escapeForClassList st.previousLocation.pathname)
    (escapeForClassList pathname)
  let isIsolated := startsWith pathname "/isolated"
  let info := if isIsolated then findIsolatedInfo filesInfo pathname
    else findInstructionInfo filesInfo pathname
  if isIsolated && info.isNone then
    ({ st with bodyClassList := cl2, bodyReplacedWithNotFound := true },
     { notFound := true, scheduledTitle := none,
       renderIsolatedFilePath := none, renderReactCalled := false })
  else
    ({ st with bodyClassList := cl2,
               previousLocation := location,
               previousIsIsolated := some isIsolated },
     { notFound := false
       scheduledTitle := some (computeTitle info projectTitle)
       renderIsolatedFilePath :=
         if isIsolated && info.isSome then info.map (fun i => i.filePath)
         else none
       renderReactCalled :=
         !(isIsolated && info.isSome)
           && !(st.previousIsIsolated == some isIsolated) })

/-- A browser navigation: `history` installs the new location object and then
calls the listener (`handleLocationChange`) with that same object,
synchronously. -/
def navigate (filesInfo : List FileInfo) (projectTitle : String)
    (st : NavState) (loc : Location) : NavState × NavEffects :=
  handleLocationChange filesInfo projectTitle
    { st with historyLocation := loc } loc

/-- What the `then`-callback of `renderIsolated` (lines 185-256) does once the
module promise settles, applied to the state at resolution time. -/
inductive IsolatedRenderEffect where
  | noRender
  | reactRender (component : JSValue)
  | domReplacement (html : String)
deriving DecidableEq, Repr

/-- The resolution step of `renderIsolated`: the stale guard returns early
when `history.location !== previousLocation` at resolution time; otherwise a
function default export other than `DO_NOT_RENDER` is rendered through React,
a string default export replaces the document, and anything else is left to
have run its own effects. -/
def renderIsolatedResolution (st : NavState) (defaultExport : JSValue) :
    IsolatedRenderEffect :=
  if st.historyLocation ≠ st.previousLocation then .noRender
  else if defaultExport.isFunction then
    if defaultExport = JSValue.doNotRender then .noRender
    else .reactRender defaultExport
  else match defaultExport with
    | .str s => .domReplacement s
    | _ => .noRender

/-! ### Script replay during isolated HTML rendering -/

/-- A `<script>` element as the replay loop observes it: its `src` attribute
(if any) and its inline text. -/
structure ScriptTag where
  src : Option String
  body : String
deriving DecidableEq, Repr

/-- The replay loop of `renderIsolated` (lines 211-243) over the scripts in
document order, carrying `loadingScriptsQueue` (here: the document indices of
the external scripts queued so far) and the index of the current script.
Per script it records which external scripts' load events were awaited before
that script was re-inserted (inline scripts await the whole queue, external
ones await nothing); it also returns the final queue awaited by the trailing
`await Promise.all(loadingScriptsQueue)`. -/
def replayScriptsAux : List ScriptTag → List Nat → Nat →
    List (Nat × List Nat) × List Nat
  | [], queue, _ => ([], queue)
  | s :: rest, queue, i =>
    let awaited := if s.src.isSome then [] else queue
    let queue2 := if s.src.isSome then queue ++ [i] else queue
    let r := replayScriptsAux rest queue2 (i + 1)
    ((i, awaited) :: r.1, r.2)

/-- The schedule of one isolated-HTML script replay: for each script, in
document order, the external-script load events awaited before it runs, and
the loads awaited before the render pass completes. -/
def replaySchedule (scripts : List ScriptTag) :
    List (Nat × List Nat) × List Nat :=
  replayScriptsAux scripts [] 0

/-- The indices (from `i0`) of the scripts that carry a `src` attribute. -/
def externalIndicesFrom (scripts : List ScriptTag) (i0 : Nat) : List Nat :=
  match scripts with
  | [] => []
  | s :: rest =>
    (if s.src.isSome then [i0] else []) ++ externalIndicesFrom rest (i0 + 1)

/-! ### Startup registration of lazy components -/

/-- `componentExtensions` from `makeKCDWorkshopApp` (line 57). -/
def componentExtensions : List String := [".js", ".md", ".mdx", ".tsx", ".ts"]

/-- The registry built by the startup loop (lines 55-65):
`lazyComponents[filePath] = React.lazy(moduleWithDefaultExport(imports,
filePath))` for every manifest entry with a component-like extension.  The
`React.lazy` wrapper is transparent here, so an entry holds the loader's
settlement; a synchronous throw from `moduleWithDefaultExport` aborts the
whole registration, as in the source. -/
def makeLazyComponents (imports : Imports) :
    List FileInfo → Except String (List (String × ImportResult))
  | [] => .ok []
  | fi :: rest =>
    if componentExtensions.contains fi.ext then
      match moduleWithDefaultExport imports fi.filePath with
      | .error e => .error e
      | .ok loader =>
        (makeLazyComponents imports rest).map
          (fun tail => (fi.filePath, loader) :: tail)
    else makeLazyComponents imports rest

/-- Does the resolver's returned loader settle fulfilled (as opposed to
throwing synchronously or yielding a rejecting loader)? -/
def resolvesSuccessfully : Except String ImportResult → Bool
  | .ok (.ok _) => true
  | _ => false

/-!  ## Theorems  -/

/-- C3: for a file path not ending in `html` whose import resolves, the
returned loader yields a default export chosen by preference order: the
module's `App` export if present (non-nullish), otherwise its `default`
export, otherwise `DO_NOT_RENDER`. -/
theorem moduleWithDefaultExport_prefers_App_then_default
    (imports : Imports) (filePath : String) (m : Module)
    (hlook : imports.lookup filePath = some (Except.ok m))
    (hhtml : endsWith filePath "html" = false) :
    moduleWithDefaultExport imports filePath =
      .ok (.ok { App := .undefined
                 default :=
                   if m.App.isNullish = false then m.App
                   else if m.default.isNullish = false then m.default
                   else JSValue.doNotRender }) := by
  unfold moduleWithDefaultExport
  rw [hlook]
  simp only [hhtml, Bool.false_eq_true, if_false]
  by_cases hA : m.App.isNullish = true
  · by_cases hD : m.default.isNullish = true <;>
      simp [jsNullish, hA, hD]
  · simp [jsNullish, hA]

/-- Witness for C3 at a module providing both `App` and `default`. -/
theorem moduleWithDefaultExport_prefers_App_then_default_witness :
    moduleWithDefaultExport
        [("a.js", Except.ok { App := JSValue.fn "A", default := JSValue.fn "D" })]
        "a.js" =
      .ok (.ok { App := .undefined
                 default :=
                   if (JSValue.fn "A").isNullish = false then JSValue.fn "A"
                   else if (JSValue.fn "D").isNullish = false then JSValue.fn "D"
                   else JSValue.doNotRender }) :=
  moduleWithDefaultExport_prefers_App_then_default
    [("a.js", Except.ok { App := JSValue.fn "A", default := JSValue.fn "D" })]
    "a.js" { App := JSValue.fn "A", default := JSValue.fn "D" }
    (by decide) (by decide)

/-- C4 counterexample: for the path `a.html` (which ends in `html`) a
rejecting import loader is returned unchanged, so the resolver's result does
not resolve successfully — refuting "for every file path ... never rejects". -/
theorem moduleWithDefaultExport_html_rejection_counterexample :
    moduleWithDefaultExport [("a.html", Except.error ⟨"boom"⟩)] "a.html" =
        .ok (.error ⟨"boom"⟩) ∧
      resolvesSuccessfully
        (moduleWithDefaultExport [("a.html", Except.error ⟨"boom"⟩)] "a.html") =
        false := by
  constructor <;> decide

/-- C4 (amended): for every file path not ending in `html`, when the
underlying import loader rejects, the returned loader still resolves
successfully, to a fallback component carrying the error message. -/
theorem moduleWithDefaultExport_absorbs_rejection
    (imports : Imports) (filePath : String) (e : JSError)
    (hlook : imports.lookup filePath = some (Except.error e))
    (hhtml : endsWith filePath "html" = false) :
    moduleWithDefaultExport imports filePath =
      .ok (.ok { App := .undefined
                 default := JSValue.errorComponent e.message }) := by
  unfold moduleWithDefaultExport
  rw [hlook]
  simp [hhtml]

/-- Witness for the amended C4 at a rejecting `.js` import. -/
theorem moduleWithDefaultExport_absorbs_rejection_witness :
    moduleWithDefaultExport [("a.js", Except.error ⟨"boom"⟩)] "a.js" =
      .ok (.ok { App := .undefined
                 default := JSValue.errorComponent "boom" }) :=
  moduleWithDefaultExport_absorbs_rejection _ _ ⟨"boom"⟩ (by decide) (by decide)

/-- C10: for every file path ending in the character sequence `html` (no dot
required) with an entry in `imports`, the resolver returns the raw import
loader unchanged — in particular a rejecting loader propagates its
rejection. -/
theorem moduleWithDefaultExport_html_raw
    (imports : Imports) (filePath : String) (p : ImportResult)
    (hhtml : endsWith filePath "html" = true)
    (hlook : imports.lookup filePath = some p) :
    moduleWithDefaultExport imports filePath = .ok p := by
  unfold moduleWithDefaultExport
  rw [hlook]
  simp [hhtml]

/-- Witness for C10 at the dotless path `foohtml` with a rejecting loader:
the rejection reaches the caller unchanged. -/
theorem moduleWithDefaultExport_html_raw_witness :
    moduleWithDefaultExport [("foohtml", Except.error ⟨"nope"⟩)] "foohtml" =
      .ok (Except.error ⟨"nope"⟩) :=
  moduleWithDefaultExport_html_raw _ _ _ (by decide) (by decide)

/-- Correspondence between a successfully built registry and the manifest,
in propositional form (helper for the Boolean statement below). -/
theorem makeLazyComponents_correspondence_aux
    (imports : Imports) (filesInfo : List FileInfo)
    (reg : List (String × ImportResult))
    (h : makeLazyComponents imports filesInfo = .ok reg) :
    (∀ f ∈ filesInfo, f.ext ∈ componentExtensions →
       ∃ e ∈ reg, e.1 = f.filePath) ∧
    (∀ e ∈ reg, ∃ f ∈ filesInfo,
       f.ext ∈ componentExtensions ∧ e.1 = f.filePath) := by
  induction filesInfo generalizing reg with
  | nil =>
    rw [makeLazyComponents] at h
    cases h
    simp
  | cons fi rest ih =>
    rw [makeLazyComponents] at h
    cases hc : componentExtensions.contains fi.ext with
    | false =>
      rw [hc] at h
      simp only [Bool.false_eq_true, if_false] at h
      obtain ⟨ih1, ih2⟩ := ih reg h
      constructor
      · intro f hf hext
        rcases List.mem_cons.mp hf with rfl | hf2
        · exact absurd ((List.elem_iff).mpr hext) (by simp [List.contains] at hc; simp [hc])
        · exact ih1 f hf2 hext
      · intro e he
        obtain ⟨f, hf, hfe⟩ := ih2 e he
        exact ⟨f, List.mem_cons_of_mem _ hf, hfe⟩
    | true =>
      rw [hc] at h
      simp only [if_true] at h
      cases hm : moduleWithDefaultExport imports fi.filePath with
      | error e => rw [hm] at h; cases h
      | ok loader =>
        rw [hm] at h
        cases hr : makeLazyComponents imports rest with
        | error e => rw [hr] at h; cases h
        | ok tail =>
          rw [hr] at h
          simp only [Except.map] at h
          cases h
          obtain ⟨ih1, ih2⟩ := ih tail hr
          constructor
          · intro f hf hext
            rcases List.mem_cons.mp hf with rfl | hf2
            · exact ⟨(f.filePath, loader), List.mem_cons_self _ _, rfl⟩
            · obtain ⟨e, he, hee⟩ := ih1 f hf2 hext
              exact ⟨e, List.mem_cons_of_mem _ he, hee⟩
          · intro e he
            rcases List.mem_cons.mp he with rfl | he2
            · exact ⟨fi, List.mem_cons_self _ _, (List.elem_iff).mp hc, rfl⟩
            · obtain ⟨f, hf, hfe⟩ := ih2 e he2
              exact ⟨f, List.mem_cons_of_mem _ hf, hfe⟩

/-- A small import map used by concrete witnesses. -/
def demoImports : Imports :=
  [("src/app.js", .ok { App := .fn "A", default := .undefined }),
   ("src/readme.md", .ok { App := .undefined, default := .fn "R" })]

/-- A small manifest used by concrete witnesses. -/
def demoManifest : List FileInfo :=
  [{ ext := ".js", filePath := "src/app.js", number := some 1,
     title := "", filename := "app.js", type := "instruction" },
   { ext := ".html", filePath := "src/x.html", number := none,
     title := "", filename := "x.html", type := "other" },
   { ext := ".md", filePath := "src/readme.md", number := some 2,
     title := "Readme", filename := "readme.md", type := "instruction" }]

/-- The registry the startup loop builds from `demoImports`/`demoManifest`. -/
def demoRegistry : List (String × ImportResult) :=
  [("src/app.js", .ok { App := .undefined, default := .fn "A" }),
   ("src/readme.md", .ok { App := .undefined, default := .fn "R" })]

/-- C9: when startup registration succeeds, the lazy-component registry and
the manifest are in correspondence: every manifest entry whose extension is in
the recognised component-extension set has a registry entry keyed by its file
path, and every registry entry arises from such a manifest entry. -/
theorem makeLazyComponents_manifest_correspondence
    (imports : Imports) (filesInfo : List FileInfo)
    (reg : List (String × ImportResult))
    (h : makeLazyComponents imports filesInfo = .ok reg) :
    filesInfo.all (fun f => !(componentExtensions.contains f.ext)
        || (reg.map Prod.fst).contains f.filePath) = true ∧
    reg.all (fun e => filesInfo.any (fun f =>
        componentExtensions.contains f.ext && e.1 == f.filePath)) = true := by
  obtain ⟨h1, h2⟩ := makeLazyComponents_correspondence_aux imports filesInfo reg h
  constructor
  · rw [List.all_eq_true]
    intro f hf
    by_cases hext : f.ext ∈ componentExtensions
    · obtain ⟨e, he, hee⟩ := h1 f hf hext
      have : f.filePath ∈ reg.map Prod.fst := hee ▸ List.mem_map_of_mem Prod.fst he
      simp [this]
    · simp [hext]
  · rw [List.all_eq_true]
    intro e he
    obtain ⟨f, hf, hext, hee⟩ := h2 e he
    rw [List.any_eq_true]
    exact ⟨f, hf, by simp [hext, hee]⟩

/-- Witness for C9 on the demo manifest (the `.html` entry is skipped, the
`.js` and `.md` entries are registered under their file paths). -/
theorem makeLazyComponents_manifest_correspondence_witness :
    demoManifest.all (fun f => !(componentExtensions.contains f.ext)
        || (demoRegistry.map Prod.fst).contains f.filePath) = true ∧
    demoRegistry.all (fun e => demoManifest.any (fun f =>
        componentExtensions.contains f.ext && e.1 == f.filePath)) = true :=
  makeLazyComponents_manifest_correspondence demoImports demoManifest
    demoRegistry (by decide)

/-- A state in the middle of a session, sitting on the shell view `/1`, used
by concrete witnesses. -/
def demoShellState : NavState :=
  { historyLocation := ⟨2, "/1"⟩
    previousLocation := ⟨2, "/1"⟩
    previousIsIsolated := some false
    bodyClassList := ["_1"]
    bodyReplacedWithNotFound := false }

/-- C5: an isolated navigation with no matching manifest entry replaces the
body with the not-found placeholder and returns at once: no title update is
scheduled, neither renderer runs, and the previous-location state is left
untouched. -/
theorem handleLocationChange_notFound
    (fi : List FileInfo) (pt : String) (st : NavState) (loc : Location)
    (hiso : startsWith loc.pathname "/isolated" = true)
    (hnone : findIsolatedInfo fi loc.pathname = none) :
    handleLocationChange fi pt st loc =
      ({ st with
          bodyClassList := updateClassList st.bodyClassList
            (escapeForClassList st.previousLocation.pathname)
            (escapeForClassList loc.pathname)
          bodyReplacedWithNotFound := true },
       { notFound := true, scheduledTitle := none,
         renderIsolatedFilePath := none, renderReactCalled := false }) := by
  unfold handleLocationChange
  simp [hiso, hnone]

/-- Witness for C5: navigating to `/isolated/missing.js` against the demo
manifest installs the placeholder and schedules nothing. -/
theorem handleLocationChange_notFound_witness :
    handleLocationChange demoManifest "Proj" demoShellState
        ⟨3, "/isolated/missing.js"⟩ =
      ({ demoShellState with
          bodyClassList := updateClassList demoShellState.bodyClassList
            (escapeForClassList demoShellState.previousLocation.pathname)
            (escapeForClassList "/isolated/missing.js")
          bodyReplacedWithNotFound := true },
       { notFound := true, scheduledTitle := none,
         renderIsolatedFilePath := none, renderReactCalled := false }) :=
  handleLocationChange_notFound demoManifest "Proj" demoShellState
    ⟨3, "/isolated/missing.js"⟩ (by decide) (by decide)

/-- The new path's class is always in the updated class list. -/
theorem mem_updateClassList (l : List String) (p q : String) :
    q ∈ updateClassList l p q := by
  have key : ∀ m : List String, q ∈ (if !(m.contains q) then m ++ [q] else m) := by
    intro m
    by_cases hm : q ∈ m <;> simp [hm]
  unfold updateClassList
  exact key _

/-- The previous path's class is gone from the updated class list whenever it
differs from the new one. -/
theorem not_mem_updateClassList (l : List String) (p q : String)
    (hne : p ≠ q) : p ∉ updateClassList l p q := by
  have hcl1 : p ∉ (if p ∈ l then l.filter (fun c => !(c == p)) else l) := by
    by_cases hp : p ∈ l <;> simp [hp, List.mem_filter]
  unfold updateClassList
  by_cases hq : q ∈ (if p ∈ l then l.filter (fun c => !(c == p)) else l) <;>
    simp [hq, hcl1, hne]

/-- Both branches of a pass update the body class list the same way. -/
theorem handleLocationChange_bodyClassList
    (fi : List FileInfo) (pt : String) (st : NavState) (loc : Location) :
    (handleLocationChange fi pt st loc).1.bodyClassList =
      updateClassList st.bodyClassList
        (escapeForClassList st.previousLocation.pathname)
        (escapeForClassList loc.pathname) := by
  unfold handleLocationChange
  dsimp only
  split <;> split <;> rfl

/-- C7 (amended): after handling a navigation from path A to path B, the body
class list contains the escaped class of B; and provided the escaped classes
of A and B differ (escaping is not injective), it no longer contains the
escaped class of A. -/
theorem handleLocationChange_classList_marker
    (fi : List FileInfo) (pt : String) (st : NavState) (loc : Location)
    (hne : escapeForClassList st.previousLocation.pathname ≠
      escapeForClassList loc.pathname) :
    escapeForClassList loc.pathname ∈
        (handleLocationChange fi pt st loc).1.bodyClassList ∧
      escapeForClassList st.previousLocation.pathname ∉
        (handleLocationChange fi pt st loc).1.bodyClassList := by
  rw [handleLocationChange_bodyClassList]
  exact ⟨mem_updateClassList _ _ _, not_mem_updateClassList _ _ _ hne⟩

/-- Witness for the amended C7: navigating `/1` → `/2`. -/
theorem handleLocationChange_classList_marker_witness :
    escapeForClassList "/2" ∈
        (handleLocationChange demoManifest "Proj" demoShellState
          ⟨7, "/2"⟩).1.bodyClassList ∧
      escapeForClassList demoShellState.previousLocation.pathname ∉
        (handleLocationChange demoManifest "Proj" demoShellState
          ⟨7, "/2"⟩).1.bodyClassList :=
  handleLocationChange_classList_marker demoManifest "Proj" demoShellState
    ⟨7, "/2"⟩ (by decide)

/-- A fresh session state at `/`, before any navigation. -/
def freshState : NavState :=
  { historyLocation := ⟨0, "/"⟩
    previousLocation := ⟨0, "/"⟩
    previousIsIsolated := none
    bodyClassList := []
    bodyReplacedWithNotFound := false }

/-- C7 counterexample: `/`→`_` replacement precedes the percent-encoding, so
the distinct paths `/a/b` and `/a_b` share the escaped class `_a_b`; after
navigating from the former to the latter the escaped class of the former is
still in the body class list, refuting the unconditional claim. -/
theorem handleLocationChange_classList_marker_counterexample :
    ("/a/b" : String) ≠ "/a_b" ∧
      escapeForClassList "/a/b" ∈
        ((navigate [] "Proj" (navigate [] "Proj" freshState ⟨1, "/a/b"⟩).1
            ⟨2, "/a_b"⟩).1).bodyClassList := by
  constructor
  · decide
  · decide

/-- C8 (amended): on each pass the application (shell) renderer is invoked
exactly when the path is not isolated and the isolation flag differs from the
previous pass's flag (or that flag is still unset); and the isolated renderer
receives exactly the matching manifest entry's file path on isolated passes
(nothing otherwise — in particular, an isolated pass with a match never
re-renders the shell, even though the flag differs). -/
theorem handleLocationChange_render_dispatch
    (fi : List FileInfo) (pt : String) (st : NavState) (loc : Location) :
    ((handleLocationChange fi pt st loc).2.renderReactCalled = true ↔
      (startsWith loc.pathname "/isolated" = false ∧
        st.previousIsIsolated ≠ some false)) ∧
    (handleLocationChange fi pt st loc).2.renderIsolatedFilePath =
      (if startsWith loc.pathname "/isolated" = true
        then (findIsolatedInfo fi loc.pathname).map (fun i => i.filePath)
        else none) := by
  unfold handleLocationChange
  dsimp only
  cases hiso : startsWith loc.pathname "/isolated" with
  | false => simp [hiso]
  | true =>
    cases hfind : findIsolatedInfo fi loc.pathname with
    | none => simp [hiso, hfind]
    | some i => simp [hiso, hfind]

/-- Witness for the amended C8 at a concrete shell-to-shell navigation. -/
theorem handleLocationChange_render_dispatch_witness :
    ((handleLocationChange demoManifest "Proj" demoShellState
        ⟨7, "/2"⟩).2.renderReactCalled = true ↔
      (startsWith "/2" "/isolated" = false ∧
        demoShellState.previousIsIsolated ≠ some false)) ∧
    (handleLocationChange demoManifest "Proj" demoShellState
        ⟨7, "/2"⟩).2.renderIsolatedFilePath =
      (if startsWith "/2" "/isolated" = true
        then (findIsolatedInfo demoManifest "/2").map (fun i => i.filePath)
        else none) :=
  handleLocationChange_render_dispatch demoManifest "Proj" demoShellState
    ⟨7, "/2"⟩

/-- C8 counterexample: from the shell (`previousIsIsolated = some false`) to
an isolated path with a manifest match the isolation flag differs, yet the
shell renderer is not invoked — only the isolated renderer runs. -/
theorem handleLocationChange_render_dispatch_counterexample :
    startsWith "/isolated/app.js" "/isolated" = true ∧
      demoShellState.previousIsIsolated = some false ∧
      (handleLocationChange demoManifest "Proj" demoShellState
        ⟨3, "/isolated/app.js"⟩).2.renderIsolatedFilePath = some "src/app.js" ∧
      (handleLocationChange demoManifest "Proj" demoShellState
        ⟨3, "/isolated/app.js"⟩).2.renderReactCalled = false := by
  decide

/-- A two-element join never yields the empty string (its length is at least
the separator's). -/
theorem append_mid_ne_empty (x y : String) : x ++ ". " ++ y ≠ "" := by
  intro h
  have h2 := congrArg String.length h
  simp only [String.length_append] at h2
  have h3 : (". ").length = 2 := rfl
  have h4 : ("" : String).length = 0 := rfl
  rw [h3, h4] at h2
  omega

/-- `String.intercalate` on a two-element list. -/
theorem intercalate_pair (sep a b : String) :
    String.intercalate sep [a, b] = a ++ sep ++ b := rfl

/-- With no matching instruction the deferred title is just the project
title. -/
theorem computeTitle_none (pt : String) : computeTitle none pt = pt := by
  by_cases h : pt = ""
  · subst h; rfl
  · have hparts : jsFilterBoolean [none, some pt] = [pt] := by
      simp [jsFilterBoolean, h]
    unfold computeTitle
    dsimp only [Option.map]
    rw [hparts]
    rfl

/-- The deferred title for a matched instruction with nonzero number and
nonempty project title. -/
theorem computeTitle_some (i : FileInfo) (pt : String) (n : Nat)
    (hnum : i.number = some n) (hn : n ≠ 0) (hpt : pt ≠ "") :
    computeTitle (some i) pt =
      toString n ++ ". " ++ (if i.title ≠ "" then i.title else i.filename)
        ++ " | " ++ pt := by
  have hs := append_mid_ne_empty (toString n)
    (if i.title = "" then i.filename else i.title)
  simp [computeTitle, jsFilterBoolean, hnum, hn, hpt, hs, intercalate_pair]

/-- `jsNumEq` against an actual number pins the left side down. -/
theorem jsNumEq_some (a : Option Nat) (n : Nat)
    (h : jsNumEq a (some n) = true) : a = some n := by
  cases a with
  | none => simp [jsNumEq] at h
  | some b => simp [jsNumEq] at h; simp [h]

/-- C6 (amended): a non-isolated navigation whose trailing segment parses to
the number `n` selects (at most) a manifest entry of type `instruction` with
number `n`; with `n ≠ 0` and a nonempty project title, the scheduled title is
`"n. <title or filename> | <projectTitle>"` on a match and just the project
title on no match (`info.number` being falsy, a matched number `0` would get
no `"0. "` prefix). -/
theorem handleLocationChange_instruction_title
    (fi : List FileInfo) (pt : String) (st : NavState) (loc : Location)
    (n : Nat)
    (hiso : startsWith loc.pathname "/isolated" = false)
    (hseg : jsNumber (lastSegment loc.pathname) = some n)
    (hn : n ≠ 0) (hpt : pt ≠ "") :
    (findInstructionInfo fi loc.pathname).all
        (fun i => i.type == "instruction" && jsNumEq i.number (some n)) =
        true ∧
    (handleLocationChange fi pt st loc).2.scheduledTitle =
      some (match findInstructionInfo fi loc.pathname with
        | some i => toString n ++ ". " ++
            (if i.title ≠ "" then i.title else i.filename) ++ " | " ++ pt
        | none => pt) := by
  have heff : (handleLocationChange fi pt st loc).2.scheduledTitle =
      some (computeTitle (findInstructionInfo fi loc.pathname) pt) := by
    unfold handleLocationChange
    dsimp only
    simp [hiso]
  cases hfind : findInstructionInfo fi loc.pathname with
  | none =>
    refine ⟨rfl, ?_⟩
    rw [heff, hfind, computeTitle_none]
  | some i =>
    have hpred := List.find?_some hfind
    rw [hseg] at hpred
    have hsplit := (Bool.and_eq_true _ _).mp hpred
    have hnum : i.number = some n := jsNumEq_some _ _ hsplit.2
    refine ⟨by simpa [Option.all] using hpred, ?_⟩
    rw [heff, hfind, computeTitle_some i pt n hnum hn hpt]

/-- A manifest whose single instruction carries the number `0`. -/
def zeroManifest : List FileInfo :=
  [{ ext := ".md", filePath := "src/00.md", number := some 0,
     title := "Zero", filename := "00.md", type := "instruction" }]

/-- C6 counterexample: navigating to `/0` matches the instruction numbered
`0`, but the scheduled title is `"Zero | Proj"`, not the claimed
`"0. Zero | Proj"` — `info.number` is falsy at `0`, so the numeric prefix is
dropped. -/
theorem handleLocationChange_instruction_title_counterexample :
    (handleLocationChange zeroManifest "Proj" demoShellState
        ⟨4, "/0"⟩).2.scheduledTitle = some "Zero | Proj" ∧
      ("Zero | Proj" : String) ≠ "0. Zero | Proj" := by
  decide

/-- Witness for the amended C6: navigating to `/2` against the demo
manifest. -/
theorem handleLocationChange_instruction_title_witness :
    (findInstructionInfo demoManifest "/2").all
        (fun i => i.type == "instruction" && jsNumEq i.number (some 2)) =
        true ∧
    (handleLocationChange demoManifest "Proj" demoShellState
        ⟨9, "/2"⟩).2.scheduledTitle =
      some (match findInstructionInfo demoManifest "/2" with
        | some i => toString 2 ++ ". " ++
            (if i.title ≠ "" then i.title else i.filename) ++ " | " ++ "Proj"
        | none => "Proj") :=
  handleLocationChange_instruction_title demoManifest "Proj" demoShellState
    ⟨9, "/2"⟩ 2 (by decide) (by decide) (by decide) (by decide)

/-! ### The stale-navigation scenario (C1) -/

/-- Session start: `previousLocation` is initialised to `history.location`
itself and `previousIsIsolated` to `null`, before the kick-off call. -/
def c1Initial : NavState :=
  { historyLocation := ⟨0, "/"⟩
    previousLocation := ⟨0, "/"⟩
    previousIsIsolated := none
    bodyClassList := []
    bodyReplacedWithNotFound := false }

/-- State after the synchronous kick-off pass at `/`. -/
def c1AfterStartup : NavState :=
  (handleLocationChange demoManifest "Proj" c1Initial ⟨0, "/"⟩).1

/-- First navigation: to `/isolated/app.js`, which matches `src/app.js` and
starts an isolated module load. -/
def c1IsolatedNav : NavState × NavEffects :=
  navigate demoManifest "Proj" c1AfterStartup ⟨1, "/isolated/app.js"⟩

/-- Second navigation, to `/1`, completing before the first navigation's
module promise resolves. -/
def c1AfterSecondNav : NavState :=
  (navigate demoManifest "Proj" c1IsolatedNav.1 ⟨2, "/1"⟩).1

/-- C1 (code bug): the first navigation starts an isolated load of
`src/app.js`; a second navigation to `/1` then completes, leaving
`previousLocation` equal to the *new* `history.location`.  When the first
navigation's module promise now resolves, the guard
`history.location !== previousLocation` therefore does not fire, and the
stale render is applied — contradicting both the spec and the code's own
comment that a late resolution after a location change must do nothing. -/
theorem staleNavigationGuard_fails :
    c1IsolatedNav.2.renderIsolatedFilePath = some "src/app.js" ∧
      c1AfterSecondNav.historyLocation = ⟨2, "/1"⟩ ∧
      (⟨2, "/1"⟩ : Location) ≠ ⟨1, "/isolated/app.js"⟩ ∧
      c1AfterSecondNav.historyLocation = c1AfterSecondNav.previousLocation ∧
      renderIsolatedResolution c1AfterSecondNav (JSValue.fn "App") =
        IsolatedRenderEffect.reactRender (JSValue.fn "App") := by
  decide

/-- Generalised invariant of the replay loop: indices are emitted in order
from `i0`; the final queue is the starting queue followed by every external
script's index; and an inline script at offset `k` awaits the starting queue
plus exactly the externals that precede it. -/
theorem replayScriptsAux_spec (scripts : List ScriptTag) (queue : List Nat)
    (i0 : Nat) :
    ((replayScriptsAux scripts queue i0).1.map Prod.fst =
      (List.range scripts.length).map (fun k => i0 + k)) ∧
    ((replayScriptsAux scripts queue i0).2 =
      queue ++ externalIndicesFrom scripts i0) ∧
    (∀ k t, scripts.get? k = some t → t.src = none →
      (replayScriptsAux scripts queue i0).1.get? k =
        some (i0 + k, queue ++ externalIndicesFrom (scripts.take k) i0)) := by
  induction scripts generalizing queue i0 with
  | nil =>
    refine ⟨by simp [replayScriptsAux], by simp [replayScriptsAux,
      externalIndicesFrom], ?_⟩
    intro k t hk
    simp at hk
  | cons s rest ih =>
    obtain ⟨ih1, ih2, ih3⟩ :=
      ih (if s.src.isSome then queue ++ [i0] else queue) (i0 + 1)
    refine ⟨?_, ?_, ?_⟩
    · simp only [replayScriptsAux, List.map_cons, ih1, List.length_cons,
        List.range_succ_eq_map, List.map_map]
      have harith : ((fun k => i0 + k) ∘ Nat.succ) = fun k => i0 + 1 + k := by
        funext k
        simp [Function.comp]
        omega
      rw [harith]
      simp
    · simp only [replayScriptsAux, ih2, externalIndicesFrom]
      cases hsrc : s.src.isSome <;> simp [hsrc, List.append_assoc]
    · intro k t hk hsrc2
      cases k with
      | zero =>
        have hst : s = t := by simpa using hk
        have hs2 : s.src.isSome = false := by rw [hst, hsrc2]; rfl
        simp [replayScriptsAux, hs2, externalIndicesFrom]
      | succ k =>
        have hk2 : rest.get? k = some t := by simpa using hk
        have hrec := ih3 k t hk2 hsrc2
        simp only [replayScriptsAux, List.get?_cons_succ, hrec,
          List.take_succ_cons, externalIndicesFrom]
        cases hsrc : s.src.isSome <;>
          simp [hsrc, List.append_assoc, Nat.add_comm, Nat.add_assoc,
            Nat.add_left_comm]

/-- C2: during isolated HTML script replay, scripts are reprocessed in
original document order; each inline script awaits exactly the load events of
the external scripts queued before it (all externals earlier in document
order); and the pass completes only after every queued external load. -/
theorem replaySchedule_order_and_waits (scripts : List ScriptTag) :
    ((replaySchedule scripts).1.map Prod.fst = List.range scripts.length) ∧
    ((replaySchedule scripts).2 = externalIndicesFrom scripts 0) ∧
    (∀ k t, scripts.get? k = some t → t.src = none →
      (replaySchedule scripts).1.get? k =
        some (k, externalIndicesFrom (scripts.take k) 0)) := by
  obtain ⟨h1, h2, h3⟩ := replayScriptsAux_spec scripts [] 0
  refine ⟨by simpa using h1, by simpa using h2, ?_⟩
  intro k t hk hsrc
  simpa using h3 k t hk hsrc

/-- The spec's canonical shape: an external script, an inline one, another
external, another inline. -/
def demoScripts : List ScriptTag :=
  [⟨some "a.js", ""⟩, ⟨none, "window.x = 1"⟩,
   ⟨some "b.js", ""⟩, ⟨none, "window.y = 2"⟩]

/-- Witness for C2: in `demoScripts` the second inline script (index 3)
awaits the loads of both preceding external scripts (indices 0 and 2). -/
theorem replaySchedule_order_and_waits_witness :
    (replaySchedule demoScripts).1.get? 3 =
      some (3, externalIndicesFrom (demoScripts.take 3) 0) :=
  (replaySchedule_order_and_waits demoScripts).2.2 3 ⟨none, "window.y = 2"⟩
    (by decide) (by decide)

end WorkshopApp
